import Mathlib

/-! Shallow embedding of the farm-monitoring dashboard pipeline
(src/streamlit_farm_dashboard4.py) and proofs of its specified properties.

Modelling conventions:
- A table is a `List` of records; a pandas column that may hold NaN/NaT is an
  `Option` field (`none` models the missing value).
- Dates are already-parsed values encoded as `Nat` in yyyymmdd form; a raw
  observation whose `date_observed` failed `pd.to_datetime(..., errors="coerce")`
  carries `none` there (the coercion itself, including dayfirst parsing, is not
  modelled: claims only depend on whether parsing succeeded and on the order of
  parsed dates).
- Heights and coordinates are `Rat` (pandas float arithmetic on these inputs is
  exact decimal arithmetic at the scale of the claims).
- A geometry is abstracted to its centroid point `(cx, cy)`: the pipeline only
  ever uses `geometry.centroid`.
- Identifier columns are taken after the `.str.strip()` / `astype(str)`
  normalisation, which no claim depends on.
-/

/-- One row of monitoring_data.csv after column/type coercion
(`Crop_id` stripped string, `date_observed` coerced date or `none`,
`height_cm` coerced numeric or `none`). -/
structure ObsRow where
  crop_id : String
  date_observed : Option Nat
  height_cm : Option Rat
  stage : Option String
  crop_health : Option String
  fid : Option Nat
deriving DecidableEq, Repr

/-- `monitoring_df = monitoring_df.dropna(subset=["date_observed"])`:
rows whose date failed to parse are removed. -/
def loadMonitoring (rows : List ObsRow) : List ObsRow :=
  rows.filter (fun r => r.date_observed.isSome)

/-- Pandas column mean: mean of the non-null values, NaN (here `none`) when
there is no non-null value. -/
def meanOpt (xs : List (Option Rat)) : Option Rat :=
  let vs := xs.filterMap id
  if vs.isEmpty then none else some (vs.sum / (vs.length : Rat))

/-- Pandas `GroupBy.last`: the last non-null value of the column in row order,
`none` when every value is null. -/
def lastOpt {α : Type} (xs : List (Option α)) : Option α :=
  xs.foldl (fun acc x => match x with | some v => some v | none => acc) none

/-- Pandas `max` aggregation on a date column: maximum of the non-null values,
NaT (here `none`) when there is none. -/
def maxOpt (xs : List (Option Nat)) : Option Nat :=
  xs.foldl (fun acc x =>
    match acc, x with
    | none, x => x
    | some a, none => some a
    | some a, some b => some (max a b)) none

/-- Pandas `count` aggregation: number of non-null values of the column. -/
def countNonNull {α : Type} (xs : List (Option α)) : Nat :=
  (xs.filterMap id).length

/-- One row of the per-crop aggregate produced by
`monitoring_df.groupby("Crop_id").agg(...)`. -/
structure AggRow where
  crop_id : String
  avg_height : Option Rat
  last_stage : Option String
  last_crop_health : Option String
  last_observed : Option Nat
  observations_count : Nat
deriving DecidableEq, Repr

/-- The aggregation applied to one group (the rows sharing one `Crop_id`,
in original row order), mirroring the named aggregations of lines 36-42:
`avg_height=("height_cm","mean"), last_stage=("stage","last"),
last_crop_health=("crop_health","last"), last_observed=("date_observed","max"),
observations_count=("fid","count")`. -/
def aggGroup (k : String) (g : List ObsRow) : AggRow :=
  { crop_id := k
    avg_height := meanOpt (g.map (fun r => r.height_cm))
    last_stage := lastOpt (g.map (fun r => r.stage))
    last_crop_health := lastOpt (g.map (fun r => r.crop_health))
    last_observed := maxOpt (g.map (fun r => r.date_observed))
    observations_count := countNonNull (g.map (fun r => r.fid)) }

/-- `agg_monitoring = monitoring_df.groupby("Crop_id").agg(...).reset_index()`:
one aggregate row per distinct `Crop_id` value, each computed from the rows
of that key in original row order. Pandas orders the keys sorted; every downstream
use (the key-based left merge) is insensitive to the order of the aggregate
rows, so distinct keys are taken via `dedup` here. -/
def agg_monitoring (df : List ObsRow) : List AggRow :=
  ((df.map (fun r => r.crop_id)).dedup).map
    (fun k => aggGroup k (df.filter (fun r => decide (r.crop_id = k))))

/-- One row of planting_centroids.geojson after normalisation, with the
"Row ID" column already renamed to "Plot ID" (line 54) and the geometry
abstracted to its centroid point `(cx, cy)` (line 64): `cx` is the longitude
(`centroid.x`), `cy` the latitude (`centroid.y`). -/
structure CentroidRow where
  id : String
  plantDate : Option Nat
  plotId : Option String
  blockId : Option String
  cropCls : Option String
  cropVariety : Option String
  cx : Rat
  cy : Rat
deriving DecidableEq, Repr

/-- One row of `merged_gdf`: the centroid columns next to the aggregate
columns brought in by the left merge; aggregate columns are `Option` because
an unmatched centroid row holds NaN/NaT there until `fillna`. -/
structure MergedRow where
  id : String
  plantDate : Option Nat
  plotId : Option String
  blockId : Option String
  cropCls : Option String
  cropVariety : Option String
  cx : Rat
  cy : Rat
  avg_height : Option Rat
  last_stage : Option String
  last_crop_health : Option String
  last_observed : Option Nat
  observations_count : Option Nat
deriving DecidableEq, Repr

/-- The merged row built from a centroid row and its (optional) matching
aggregate row: with no match every aggregate column is missing. -/
def joinRow (c : CentroidRow) (a : Option AggRow) : MergedRow :=
  { id := c.id
    plantDate := c.plantDate
    plotId := c.plotId
    blockId := c.blockId
    cropCls := c.cropCls
    cropVariety := c.cropVariety
    cx := c.cx
    cy := c.cy
    avg_height := a.bind (fun x => x.avg_height)
    last_stage := a.bind (fun x => x.last_stage)
    last_crop_health := a.bind (fun x => x.last_crop_health)
    last_observed := a.bind (fun x => x.last_observed)
    observations_count := a.map (fun x => x.observations_count) }

/-- `planting_centroids.merge(agg_monitoring, left_on="id",
right_on="Crop_id", how="left")`: every left row paired with each right row
whose key matches, or kept once with missing aggregate columns when no right
row matches. -/
def mergeLeft (left : List CentroidRow) (right : List AggRow) : List MergedRow :=
  left.flatMap (fun c =>
    if (right.filter (fun a => decide (a.crop_id = c.id))).isEmpty then
      [joinRow c none]
    else (right.filter (fun a => decide (a.crop_id = c.id))).map
      (fun a => joinRow c (some a)))

/-- `merged_gdf.fillna({"avg_height": 0, "last_stage": "N/A",
"last_crop_health": "N/A", "observations_count": 0})` applied to one row:
each listed column has its missing value replaced by the default; every other
column (in particular `last_observed`) is untouched. -/
def fillnaMerged (r : MergedRow) : MergedRow :=
  { r with
    avg_height := some (r.avg_height.getD 0)
    last_stage := some (r.last_stage.getD "N/A")
    last_crop_health := some (r.last_crop_health.getD "N/A")
    observations_count := some (r.observations_count.getD 0) }

/-- `merged_gdf` as a function of the raw observation rows and the centroid
rows: load, aggregate, left-merge, fill defaults. -/
def merged_gdf (obs : List ObsRow) (pc : List CentroidRow) : List MergedRow :=
  (mergeLeft pc (agg_monitoring (loadMonitoring obs))).map fillnaMerged

/-- Crop-class filter level (lines 74-77): "All" leaves the frame as is,
any other selection keeps the rows whose "Crop Class" equals it. -/
def filterCls (sel : String) (l : List MergedRow) : List MergedRow :=
  if sel = "All" then l else l.filter (fun r => decide (r.cropCls = some sel))

/-- Crop-variety filter level (lines 84-86). -/
def filterVariety (sel : String) (l : List MergedRow) : List MergedRow :=
  if sel = "All" then l else l.filter (fun r => decide (r.cropVariety = some sel))

/-- Stage filter level (lines 90-92), on the `last_stage` column. -/
def filterStage (sel : String) (l : List MergedRow) : List MergedRow :=
  if sel = "All" then l else l.filter (fun r => decide (r.last_stage = some sel))

/-- The whole filter cascade producing `filtered_gdf` (lines 74-92). -/
def filtered_gdf (selCls selVariety selStage : String) (l : List MergedRow) :
    List MergedRow :=
  filterStage selStage (filterVariety selVariety (filterCls selCls l))

/-- Mean of a list of rationals (`Series.mean` of an all-non-null column). -/
def listMean (xs : List Rat) : Rat := xs.sum / (xs.length : Rat)

/-- `farm_center` (lines 100-103): `[centroid.y.mean(), centroid.x.mean()]`
of the filtered rows, or the `[0, 0]` fallback when the filtered frame is
empty. Returned as (latitude, longitude). -/
def farm_center (filtered : List MergedRow) : Rat × Rat :=
  if filtered.isEmpty then (0, 0)
  else (listMean (filtered.map (fun r => r.cy)),
        listMean (filtered.map (fun r => r.cx)))

/-- The popup date cell (line 141):
`row["last_observed"].date() if pd.notnull(row["last_observed"]) else "N/A"`.
Rendering of a present date is abstracted to its decimal form; the claims only
depend on the "N/A" branch. -/
def formatDateCell (d : Option Nat) : String :=
  match d with
  | some n => toString n
  | none => "N/A"

/-- `merged_gdf.loc[merged_gdf["Plot ID"] == selected_plot, "id"].values[0]`
(line 171): the `id` of the first merged row whose "Plot ID" equals the
selection (only the first match is used). -/
def plotToCropId (merged : List MergedRow) (selectedPlot : String) : Option String :=
  (merged.find? (fun r => decide (r.plotId = some selectedPlot))).map (fun r => r.id)

/-- `progress_df = monitoring_df[monitoring_df["Crop_id"] == str(crop_id)]`
(line 172). -/
def progressRows (df : List ObsRow) (cropId : String) : List ObsRow :=
  df.filter (fun r => decide (r.crop_id = cropId))

/-- Lexicographic strict order on character lists by code point: the order in
which Python (and hence pandas sorting of string values) compares strings. -/
def charsLt : List Char → List Char → Bool
  | _, [] => false
  | [], _ :: _ => true
  | a :: as, b :: bs =>
    if a.toNat < b.toNat then true
    else if b.toNat < a.toNat then false
    else charsLt as bs

/-- Strict lexicographic order on strings by code point. -/
def strLt (a b : String) : Bool := charsLt a.data b.data

/-- The smaller of two strings in code-point order (left one on ties). -/
def minStr (a b : String) : String := if strLt b a then b else a

/-- The largest multiplicity occurring in a list of values. -/
def modeMaxCount (xs : List String) : Nat :=
  (xs.map (fun v => xs.count v)).foldl max 0

/-- Pandas `x.mode()[0]`: `Series.mode` keeps the non-null values whose
multiplicity is maximal and returns them sorted ascending, so indexing the
result at 0 yields the smallest value among those with maximal count;
`none` when the series has no non-null value. -/
def modeFirst (xs : List String) : Option String :=
  match xs.filter (fun v => decide (xs.count v = modeMaxCount xs)) with
  | [] => none
  | t :: ts => some (ts.foldl minStr t)

/-- The non-null `crop_health` values of the rows of one `date_observed`
group, in row order: the series handed to `x.mode()` on line 178. -/
def healthLabels (df : List ObsRow) (d : Nat) : List String :=
  ((df.filter (fun r => decide (r.date_observed = some d))).map
    (fun r => r.crop_health)).filterMap id

/-- One row of `progress_agg`. -/
structure ProgressRow where
  date_observed : Nat
  avg_height : Option Rat
  avg_crop_health : String
deriving DecidableEq, Repr

/-- `progress_agg = progress_df.groupby("date_observed").agg(
avg_height=("height_cm","mean"),
avg_crop_health=("crop_health", lambda x: x.mode()[0] if not x.mode().empty
else "N/A"))` (lines 176-179): one row per distinct non-null observation
date. Pandas orders the dates sorted; the per-date claims are insensitive to
row order, so distinct dates are taken via `dedup` here. -/
def progress_agg (df : List ObsRow) : List ProgressRow :=
  ((df.filterMap (fun r => r.date_observed)).dedup).map (fun d =>
    { date_observed := d
      avg_height := meanOpt ((df.filter
        (fun r => decide (r.date_observed = some d))).map (fun r => r.height_cm))
      avg_crop_health := (modeFirst (healthLabels df d)).getD "N/A" })

/-! Concrete rows used to instantiate the theorems below. -/

/-- Observation row of the worked example: crop "1", 2024-01-05, height 10. -/
def o1 : ObsRow :=
  { crop_id := "1", date_observed := some 20240105, height_cm := some 10,
    stage := some "Vegetative", crop_health := some "Good", fid := some 1 }

/-- Observation row of the worked example: crop "1", 2024-01-10, height 20. -/
def o2 : ObsRow :=
  { crop_id := "1", date_observed := some 20240110, height_cm := some 20,
    stage := some "Flowering", crop_health := some "Good", fid := some 2 }

/-- Observation row whose date failed to parse. -/
def oBad : ObsRow :=
  { crop_id := "1", date_observed := none, height_cm := some 99,
    stage := some "Weird", crop_health := some "Poor", fid := some 3 }

/-- First observation of a tied-health date: health "Poor". -/
def pr1 : ObsRow :=
  { crop_id := "1", date_observed := some 20240105, height_cm := some 10,
    stage := some "Vegetative", crop_health := some "Poor", fid := some 1 }

/-- Second observation of the same date: health "Good". -/
def pr2 : ObsRow :=
  { crop_id := "1", date_observed := some 20240105, height_cm := some 20,
    stage := some "Vegetative", crop_health := some "Good", fid := some 2 }

/-- Observation of crop "7" with a present fid. -/
def f1 : ObsRow :=
  { crop_id := "7", date_observed := some 20240101, height_cm := some 5,
    stage := some "Vegetative", crop_health := some "Good", fid := some 1 }

/-- Observation of crop "7" whose fid cell is missing. -/
def f2 : ObsRow :=
  { crop_id := "7", date_observed := some 20240102, height_cm := some 6,
    stage := some "Vegetative", crop_health := some "Good", fid := none }

/-- Observation of crop "9" whose height failed numeric coercion. -/
def h9 : ObsRow :=
  { crop_id := "9", date_observed := some 20240201, height_cm := none,
    stage := some "Vegetative", crop_health := some "Fair", fid := some 4 }

/-- Centroid row with id "99", matching no observation in the examples. -/
def c99 : CentroidRow :=
  { id := "99", plantDate := some 20231201, plotId := some "P99",
    blockId := some "B1", cropCls := some "Wheat", cropVariety := some "Red",
    cx := 3, cy := 4 }

/-- Centroid row with id "9", matching the crop of `h9`. -/
def c9 : CentroidRow :=
  { id := "9", plantDate := some 20231115, plotId := some "P9",
    blockId := some "B2", cropCls := some "Maize", cropVariety := some "White",
    cx := 1, cy := 2 }

/-- The merged row produced from `c99` with no aggregate match. -/
def m99 : MergedRow := fillnaMerged (joinRow c99 none)

/-- The merged row produced from `c9` joined with the aggregate of `h9`. -/
def m9 : MergedRow := fillnaMerged (joinRow c9 (some (aggGroup "9" [h9])))

/-- The progress row of date 2024-01-05 computed from `pr1` and `pr2`. -/
def pEx : ProgressRow :=
  { date_observed := 20240105
    avg_height := meanOpt (([pr1, pr2].filter
        (fun r => decide (r.date_observed = some 20240105))).map
      (fun r => r.height_cm))
    avg_crop_health := (modeFirst (healthLabels [pr1, pr2] 20240105)).getD "N/A" }

/-- The aggregate row of crop "7" computed from `f1` and `f2`. -/
def a7 : AggRow :=
  aggGroup "7" ([f1, f2].filter (fun r => decide (r.crop_id = "7")))

/-! Order facts about the code-point comparator. -/

lemma charsLt_irrefl (l : List Char) : charsLt l l = false := by
  induction l with
  | nil => rfl
  | cons a t ih => simp [charsLt, ih]

lemma charsLt_trans : ∀ (l₁ l₂ l₃ : List Char),
    charsLt l₁ l₂ = true → charsLt l₂ l₃ = true → charsLt l₁ l₃ = true := by
  intro l₁
  induction l₁ with
  | nil =>
    intro l₂ l₃ h₁ h₂
    cases l₂ with
    | nil => simp [charsLt] at h₁
    | cons b bs =>
      cases l₃ with
      | nil => simp [charsLt] at h₂
      | cons c cs => simp [charsLt]
  | cons a as ih =>
    intro l₂ l₃ h₁ h₂
    cases l₂ with
    | nil => simp [charsLt] at h₁
    | cons b bs =>
      cases l₃ with
      | nil => simp [charsLt] at h₂
      | cons c cs =>
        simp only [charsLt] at h₁ h₂ ⊢
        split_ifs at h₁ h₂ ⊢ <;>
          first
          | rfl
          | omega
          | (exact ih bs cs h₁ h₂)

lemma charsLt_conn : ∀ (l₁ l₂ : List Char),
    charsLt l₁ l₂ = false → charsLt l₂ l₁ = false → l₁ = l₂ := by
  intro l₁
  induction l₁ with
  | nil =>
    intro l₂ h₁ _
    cases l₂ with
    | nil => rfl
    | cons b bs => simp [charsLt] at h₁
  | cons a as ih =>
    intro l₂ h₁ h₂
    cases l₂ with
    | nil => simp [charsLt] at h₂
    | cons b bs =>
      simp only [charsLt] at h₁ h₂
      by_cases hab : a.toNat < b.toNat
      · rw [if_pos hab] at h₁
        cases h₁
      · by_cases hba : b.toNat < a.toNat
        · rw [if_pos hba] at h₂
          cases h₂
        · rw [if_neg hab, if_neg hba] at h₁
          rw [if_neg hba, if_neg hab] at h₂
          have hn : a.toNat = b.toNat := by omega
          have hchar : a = b := by
            apply Char.ext
            apply UInt32.ext
            exact hn
          rw [hchar, ih bs h₁ h₂]

lemma strLt_irrefl (a : String) : strLt a a = false := charsLt_irrefl a.data

lemma strLt_trans {a b c : String} (h₁ : strLt a b = true)
    (h₂ : strLt b c = true) : strLt a c = true :=
  charsLt_trans a.data b.data c.data h₁ h₂

lemma strLt_conn {a b : String} (h₁ : strLt a b = false)
    (h₂ : strLt b a = false) : a = b := by
  have h := charsLt_conn a.data b.data h₁ h₂
  cases a
  cases b
  exact congrArg String.mk h

lemma strLt_not_lt_trans {v m r : String} (h₁ : strLt v m = false)
    (h₂ : strLt m r = false) : strLt v r = false := by
  cases hvr : strLt v r with
  | false => rfl
  | true =>
    cases hmv : strLt m v with
    | true =>
      have hmr := strLt_trans hmv hvr
      rw [hmr] at h₂
      exact Bool.noConfusion h₂
    | false =>
      have hveq : v = m := strLt_conn h₁ hmv
      rw [hveq] at hvr
      rw [hvr] at h₂
      exact Bool.noConfusion h₂

/-! Facts about the fold computing the smallest tied mode value. -/

lemma minStr_min (t b v : String) (hv : v = t ∨ v = b) :
    strLt v (minStr t b) = false := by
  unfold minStr
  by_cases hbt : strLt b t = true
  · rw [if_pos hbt]
    rcases hv with rfl | rfl
    · cases htb : strLt v b with
      | false => rfl
      | true =>
        have hbb := strLt_trans hbt htb
        rw [strLt_irrefl] at hbb
        exact Bool.noConfusion hbb
    · exact strLt_irrefl v
  · rw [if_neg hbt]
    rcases hv with rfl | rfl
    · exact strLt_irrefl v
    · cases h : strLt v t with
      | false => rfl
      | true => exact absurd h hbt

lemma foldl_minStr_mem (t : String) (ts : List String) :
    ts.foldl minStr t ∈ t :: ts := by
  induction ts generalizing t with
  | nil => simp
  | cons b bs ih =>
    rw [List.foldl_cons]
    rcases List.mem_cons.mp (ih (minStr t b)) with h | h
    · rw [h]
      unfold minStr
      by_cases hbt : strLt b t = true
      · rw [if_pos hbt]
        exact List.mem_cons_of_mem _ (List.mem_cons_self _ _)
      · rw [if_neg hbt]
        exact List.mem_cons_self _ _
    · exact List.mem_cons_of_mem _ (List.mem_cons_of_mem _ h)

lemma foldl_minStr_min (t : String) (ts : List String) :
    ∀ v ∈ t :: ts, strLt v (ts.foldl minStr t) = false := by
  induction ts generalizing t with
  | nil =>
    intro v hv
    rw [List.mem_singleton] at hv
    rw [hv, List.foldl_nil]
    exact strLt_irrefl t
  | cons b bs ih =>
    intro v hv
    rw [List.foldl_cons]
    have hm : strLt (minStr t b) (bs.foldl minStr (minStr t b)) = false :=
      ih (minStr t b) (minStr t b) (List.mem_cons_self _ _)
    rcases List.mem_cons.mp hv with rfl | hv'
    · exact strLt_not_lt_trans (minStr_min v b v (Or.inl rfl)) hm
    · rcases List.mem_cons.mp hv' with rfl | hv''
      · exact strLt_not_lt_trans (minStr_min t v v (Or.inr rfl)) hm
      · exact ih (minStr t b) v (List.mem_cons_of_mem _ hv'')

/-! Facts about the fold computing the maximal multiplicity. -/

lemma init_le_foldl_max (l : List Nat) (init : Nat) :
    init ≤ l.foldl max init := by
  induction l generalizing init with
  | nil => exact Nat.le_refl _
  | cons x xs ih => exact Nat.le_trans (Nat.le_max_left _ _) (ih (max init x))

lemma le_foldl_max (l : List Nat) (init a : Nat) (ha : a ∈ l) :
    a ≤ l.foldl max init := by
  induction l generalizing init with
  | nil => cases ha
  | cons x xs ih =>
    rw [List.foldl_cons]
    rcases List.mem_cons.mp ha with rfl | h
    · exact Nat.le_trans (Nat.le_max_right _ _) (init_le_foldl_max xs _)
    · exact ih _ h

lemma foldl_max_attained (l : List Nat) (init : Nat) :
    l.foldl max init = init ∨ l.foldl max init ∈ l := by
  induction l generalizing init with
  | nil => exact Or.inl rfl
  | cons x xs ih =>
    rw [List.foldl_cons]
    rcases ih (max init x) with h | h
    · rcases max_choice init x with hm | hm
      · exact Or.inl (by rw [h, hm])
      · exact Or.inr (by rw [h, hm]; exact List.mem_cons_self _ _)
    · exact Or.inr (List.mem_cons_of_mem _ h)

/-! Specification of the mode tie-breaking. -/

lemma modeFirst_spec (xs : List String) (m : String)
    (h : modeFirst xs = some m) :
    m ∈ xs ∧ (∀ v ∈ xs, xs.count v ≤ xs.count m) ∧
      (∀ v ∈ xs, xs.count v = xs.count m → strLt v m = false) := by
  unfold modeFirst at h
  cases hf : xs.filter
      (fun v => decide (xs.count v = modeMaxCount xs)) with
  | nil =>
    rw [hf] at h
    cases h
  | cons t ts =>
    rw [hf] at h
    have hm : m = ts.foldl minStr t := (Option.some.injEq _ _ ▸ h).symm
    subst hm
    have hmemf : ts.foldl minStr t ∈ xs.filter
        (fun v => decide (xs.count v = modeMaxCount xs)) := by
      rw [hf]
      exact foldl_minStr_mem t ts
    have hma := List.mem_filter.mp hmemf
    have hcnt : xs.count (ts.foldl minStr t)
        = modeMaxCount xs := of_decide_eq_true hma.2
    refine ⟨hma.1, ?_, ?_⟩
    · intro v hv
      have hvm : xs.count v ∈ xs.map (fun v => xs.count v) :=
        List.mem_map_of_mem _ hv
      exact hcnt ▸ le_foldl_max _ 0 _ hvm
    · intro v hv hcv
      have hvf : v ∈ xs.filter
          (fun v => decide (xs.count v = modeMaxCount xs)) :=
        List.mem_filter.mpr ⟨hv, decide_eq_true (hcv.trans hcnt)⟩
      rw [hf] at hvf
      exact foldl_minStr_min t ts v hvf

lemma modeFirst_isSome (xs : List String) (hne : xs ≠ []) :
    ∃ m, modeFirst xs = some m := by
  unfold modeFirst
  cases hf : xs.filter
      (fun v => decide (xs.count v = modeMaxCount xs)) with
  | cons t ts => exact ⟨ts.foldl minStr t, rfl⟩
  | nil =>
    exfalso
    obtain ⟨x, hx⟩ := List.exists_mem_of_ne_nil xs hne
    rcases foldl_max_attained (xs.map (fun v => xs.count v)) 0 with h | h
    · have h1 : xs.count x ≤ 0 :=
        h ▸ le_foldl_max _ 0 _ (List.mem_map_of_mem _ hx)
      have h2 : 0 < xs.count x := List.count_pos_iff.mpr hx
      omega
    · obtain ⟨v, hv, hveq⟩ := List.mem_map.mp h
      have hvf : v ∈ xs.filter
          (fun v => decide (xs.count v = modeMaxCount xs)) :=
        List.mem_filter.mpr ⟨hv, decide_eq_true hveq⟩
      rw [hf] at hvf
      cases hvf

/-! Structure of the aggregate table and the left merge. -/

lemma nodup_agg_keys (df : List ObsRow) :
    ((agg_monitoring df).map (fun a => a.crop_id)).Nodup := by
  unfold agg_monitoring
  rw [List.map_map]
  have hcomp : ((fun a : AggRow => a.crop_id) ∘
      (fun k => aggGroup k (df.filter (fun r => decide (r.crop_id = k)))))
      = fun k => k := rfl
  rw [hcomp]
  have := List.nodup_dedup (df.map (fun r => r.crop_id))
  simpa using this

lemma agg_mem_spec (df : List ObsRow) (a : AggRow) (ha : a ∈ agg_monitoring df) :
    a = aggGroup a.crop_id (df.filter (fun r => decide (r.crop_id = a.crop_id))) := by
  unfold agg_monitoring at ha
  obtain ⟨k, _, rfl⟩ := List.mem_map.mp ha
  rfl

lemma filter_nodup_key (l : List AggRow) (k : String)
    (h : (l.map (fun a => a.crop_id)).Nodup) :
    l.filter (fun a => decide (a.crop_id = k)) =
      (l.find? (fun a => decide (a.crop_id = k))).toList := by
  induction l with
  | nil => rfl
  | cons a t ih =>
    rw [List.map_cons, List.nodup_cons] at h
    by_cases hk : a.crop_id = k
    · rw [List.filter_cons_of_pos (by simpa using hk),
        List.find?_cons_of_pos _ (by simpa using hk)]
      have ht : t.filter (fun a => decide (a.crop_id = k)) = [] := by
        rw [List.filter_eq_nil_iff]
        intro x hx
        simp only [decide_eq_true_eq]
        intro hxk
        apply h.1
        rw [hk, ← hxk]
        exact List.mem_map_of_mem _ hx
      rw [ht]
      rfl
    · rw [List.filter_cons_of_neg (by simpa using hk),
        List.find?_cons_of_neg _ (by simpa using hk)]
      exact ih h.2

lemma merged_gdf_eq_map (obs : List ObsRow) (pc : List CentroidRow) :
    merged_gdf obs pc = pc.map (fun c => fillnaMerged (joinRow c
      ((agg_monitoring (loadMonitoring obs)).find?
        (fun a => decide (a.crop_id = c.id))))) := by
  unfold merged_gdf mergeLeft
  induction pc with
  | nil => rfl
  | cons c t ih =>
    simp only [List.flatMap_cons, List.map_append, List.map_cons]
    rw [ih]
    rw [filter_nodup_key _ _ (nodup_agg_keys _)]
    cases hfind : (agg_monitoring (loadMonitoring obs)).find?
        (fun a => decide (a.crop_id = c.id)) with
    | none => rfl
    | some a => rfl

lemma mem_merged_gdf {obs : List ObsRow} {pc : List CentroidRow} {m : MergedRow}
    (hm : m ∈ merged_gdf obs pc) :
    ∃ c ∈ pc, m = fillnaMerged (joinRow c
      ((agg_monitoring (loadMonitoring obs)).find?
        (fun a => decide (a.crop_id = c.id)))) := by
  rw [merged_gdf_eq_map] at hm
  obtain ⟨c, hc, hceq⟩ := List.mem_map.mp hm
  exact ⟨c, hc, hceq.symm⟩

lemma countNonNull_eq_length_filter (g : List ObsRow) :
    countNonNull (g.map (fun r => r.fid)) =
      (g.filter (fun r => r.fid.isSome)).length := by
  induction g with
  | nil => rfl
  | cons r t ih =>
    unfold countNonNull at ih ⊢
    cases h : r.fid with
    | none => simpa [List.filterMap_cons, List.filter_cons, h] using ih
    | some v => simpa [List.filterMap_cons, List.filter_cons, h] using ih

/-- C1: every planting-centroid row yields exactly one merged row, whether or
not an aggregate row with matching crop_id exists: the merged table equals a
per-row map over the centroid table (the group-by keys are pairwise distinct,
so the left join neither duplicates nor drops centroid rows), and in
particular its length equals the length of the centroid table. -/
theorem merged_one_row_per_centroid (obs : List ObsRow) (pc : List CentroidRow) :
    merged_gdf obs pc = pc.map (fun c => fillnaMerged (joinRow c
      ((agg_monitoring (loadMonitoring obs)).find?
        (fun a => decide (a.crop_id = c.id))))) ∧
    (merged_gdf obs pc).length = pc.length := by
  refine ⟨merged_gdf_eq_map obs pc, ?_⟩
  rw [merged_gdf_eq_map obs pc, List.length_map]

/-- C2: a merged row whose centroid id matches no crop_id of the aggregate
table carries the filled defaults: avg_height 0, last_stage "N/A",
last_crop_health "N/A", observations_count 0. -/
theorem unmatched_centroid_defaults (obs : List ObsRow) (pc : List CentroidRow)
    (m : MergedRow) (hm : m ∈ merged_gdf obs pc)
    (h : ∀ a ∈ agg_monitoring (loadMonitoring obs), a.crop_id ≠ m.id) :
    m.avg_height = some 0 ∧ m.last_stage = some "N/A" ∧
      m.last_crop_health = some "N/A" ∧ m.observations_count = some 0 := by
  obtain ⟨c, hc, rfl⟩ := mem_merged_gdf hm
  cases hfind : (agg_monitoring (loadMonitoring obs)).find?
      (fun a => decide (a.crop_id = c.id)) with
  | none =>
    exact ⟨rfl, rfl, rfl, rfl⟩
  | some a =>
    exfalso
    have ha := List.mem_of_find?_eq_some hfind
    have hpa : a.crop_id = c.id := by simpa using List.find?_some hfind
    exact h a ha hpa

/-- Witness for C2 at the concrete inputs: with no observations at all, the
merged row of centroid "99" carries all four defaults. -/
theorem unmatched_centroid_defaults_witness :
    m99.avg_height = some 0 ∧ m99.last_stage = some "N/A" ∧
      m99.last_crop_health = some "N/A" ∧ m99.observations_count = some 0 :=
  unmatched_centroid_defaults [] [c99] m99 (by decide) (by decide)

/-- C3: an observation row whose date failed to parse is removed by the
loader, so the whole aggregate table is the same as if the row were absent:
the row contributes to no field of any aggregate record. -/
theorem unparsable_date_excluded (pre post : List ObsRow) (bad : ObsRow)
    (hbad : bad.date_observed = none) :
    agg_monitoring (loadMonitoring (pre ++ bad :: post)) =
      agg_monitoring (loadMonitoring (pre ++ post)) := by
  unfold loadMonitoring
  rw [List.filter_append, List.filter_append, List.filter_cons]
  simp [hbad]

/-- Witness for C3: dropping the bad-date row `oBad` between `o1` and `o2`
leaves the aggregate unchanged. -/
theorem unparsable_date_excluded_witness :
    oBad.date_observed = none ∧
      agg_monitoring (loadMonitoring ([o1] ++ oBad :: [o2])) =
        agg_monitoring (loadMonitoring ([o1] ++ [o2])) :=
  ⟨rfl, unparsable_date_excluded [o1] [o2] oBad rfl⟩

/-- C4: in the three-level filter cascade, selecting "All" at a level is the
identity transform for that level (the row set passed on is unchanged), and
selecting a concrete value keeps exactly the rows whose corresponding field
equals that value. -/
theorem filter_cascade_spec :
    (∀ l : List MergedRow, filterCls "All" l = l) ∧
    (∀ l : List MergedRow, filterVariety "All" l = l) ∧
    (∀ l : List MergedRow, filterStage "All" l = l) ∧
    (∀ (v s : String) (l : List MergedRow),
      filtered_gdf "All" v s l = filterStage s (filterVariety v l)) ∧
    (∀ (c s : String) (l : List MergedRow),
      filtered_gdf c "All" s l = filterStage s (filterCls c l)) ∧
    (∀ (c v : String) (l : List MergedRow),
      filtered_gdf c v "All" l = filterVariety v (filterCls c l)) ∧
    (∀ (sel : String) (l : List MergedRow), sel ≠ "All" →
      filterCls sel l = l.filter (fun r => decide (r.cropCls = some sel))) ∧
    (∀ (sel : String) (l : List MergedRow), sel ≠ "All" →
      filterVariety sel l = l.filter (fun r => decide (r.cropVariety = some sel))) ∧
    (∀ (sel : String) (l : List MergedRow), sel ≠ "All" →
      filterStage sel l = l.filter (fun r => decide (r.last_stage = some sel))) := by
  refine ⟨fun l => if_pos rfl, fun l => if_pos rfl, fun l => if_pos rfl,
    ?_, ?_, ?_,
    fun sel l hsel => if_neg hsel, fun sel l hsel => if_neg hsel,
    fun sel l hsel => if_neg hsel⟩
  · intro v s l
    unfold filtered_gdf filterCls
    rw [if_pos rfl]
  · intro c s l
    unfold filtered_gdf filterVariety
    rw [if_pos rfl]
  · intro c v l
    unfold filtered_gdf filterStage
    rw [if_pos rfl]

/-- Witness for C4 at concrete selections over the one-row table `[m99]`. -/
theorem filter_cascade_spec_witness :
    filterCls "All" [m99] = [m99] ∧
    filterCls "Wheat" [m99]
      = List.filter (fun r => decide (r.cropCls = some "Wheat")) [m99] ∧
    filterVariety "Red" [m99]
      = List.filter (fun r => decide (r.cropVariety = some "Red")) [m99] ∧
    filterStage "N/A" [m99]
      = List.filter (fun r => decide (r.last_stage = some "N/A")) [m99] :=
  ⟨filter_cascade_spec.1 [m99],
   filter_cascade_spec.2.2.2.2.2.2.1 "Wheat" [m99] (by decide),
   filter_cascade_spec.2.2.2.2.2.2.2.1 "Red" [m99] (by decide),
   filter_cascade_spec.2.2.2.2.2.2.2.2 "N/A" [m99] (by decide)⟩

/-- C5: for the two-row input of the worked example, the aggregate record of
crop "1" has avg_height 15, observations_count 2 and last_observed
2024-01-10. -/
theorem example_crop1_aggregate :
    (agg_monitoring (loadMonitoring [o1, o2])).map
        (fun a => (a.crop_id, a.avg_height, a.observations_count, a.last_observed))
      = [("1", some 15, 2, some 20240110)] := by
  have hload : loadMonitoring [o1, o2] = [o1, o2] := by decide
  rw [hload]
  have hkeys : (([o1, o2] : List ObsRow).map (fun r => r.crop_id)).dedup = ["1"] := by decide
  unfold agg_monitoring
  rw [hkeys]
  have hgrp : ([o1, o2] : List ObsRow).filter (fun r => decide (r.crop_id = "1"))
      = [o1, o2] := by decide
  rw [List.map_cons, List.map_nil, List.map_cons, List.map_nil, hgrp]
  have hmean : meanOpt (([o1, o2] : List ObsRow).map (fun r => r.height_cm))
      = some 15 := by
    unfold meanOpt
    simp only [o1, o2, List.map_cons, List.map_nil, List.filterMap_cons,
      List.filterMap_nil, id_eq, List.isEmpty_cons, List.sum_cons, List.sum_nil,
      List.length_cons, List.length_nil]
    norm_num
  simp only [aggGroup] at hmean ⊢
  rw [hmean]
  decide

/-- Counterexample to C6 as stated: on the tied date the health labels are
["Poor", "Good"] in row order (the first-encountered tied label is "Poor"),
yet the Progress view reports "Good" — the lexicographically smallest tied
label, not the first-encountered one. -/
theorem progress_mode_tie_counterexample :
    (progress_agg [pr1, pr2]).map (fun p => p.avg_crop_health) = ["Good"] ∧
    healthLabels [pr1, pr2] 20240105 = ["Poor", "Good"] ∧
    ("Good" : String) ≠ "Poor" := by decide

lemma progress_agg_health (df : List ObsRow) (p : ProgressRow)
    (hp : p ∈ progress_agg df) :
    p.avg_crop_health = (modeFirst (healthLabels df p.date_observed)).getD "N/A" := by
  unfold progress_agg at hp
  obtain ⟨d, _, rfl⟩ := List.mem_map.mp hp
  rfl

/-- C6 amended: in the per-date re-aggregation of the Progress view, the
reported health is a most frequent label among the rows of that date, and
when several labels
are tied for most frequent the reported one is the lexicographically smallest
(by code point) among them — no tied label is strictly below it — rather than
the first-encountered one. -/
theorem progress_health_min_mode (df : List ObsRow) (p : ProgressRow)
    (hp : p ∈ progress_agg df)
    (hne : healthLabels df p.date_observed ≠ []) :
    p.avg_crop_health ∈ healthLabels df p.date_observed ∧
    (∀ v ∈ healthLabels df p.date_observed,
      (healthLabels df p.date_observed).count v
        ≤ (healthLabels df p.date_observed).count p.avg_crop_health) ∧
    (∀ v ∈ healthLabels df p.date_observed,
      (healthLabels df p.date_observed).count v
          = (healthLabels df p.date_observed).count p.avg_crop_health →
        strLt v p.avg_crop_health = false) := by
  obtain ⟨m, hm⟩ := modeFirst_isSome _ hne
  have hfield : p.avg_crop_health = m := by
    rw [progress_agg_health df p hp, hm]
    rfl
  rw [hfield]
  exact modeFirst_spec _ m hm

/-- Witness for the amended C6 at the tied two-row input. -/
theorem progress_health_min_mode_witness :
    pEx.avg_crop_health ∈ healthLabels [pr1, pr2] pEx.date_observed ∧
    (∀ v ∈ healthLabels [pr1, pr2] pEx.date_observed,
      (healthLabels [pr1, pr2] pEx.date_observed).count v
        ≤ (healthLabels [pr1, pr2] pEx.date_observed).count pEx.avg_crop_health) ∧
    (∀ v ∈ healthLabels [pr1, pr2] pEx.date_observed,
      (healthLabels [pr1, pr2] pEx.date_observed).count v
          = (healthLabels [pr1, pr2] pEx.date_observed).count pEx.avg_crop_health →
        strLt v pEx.avg_crop_health = false) :=
  progress_health_min_mode [pr1, pr2] pEx
    (List.mem_cons_self _ _) (by decide)

/-- Counterexample to C7 as stated: crop "7" has two observation rows, one of
them with a missing fid, and observations_count is 1 — the number of non-null
fid values — not the row count 2. -/
theorem observations_count_counterexample :
    (agg_monitoring (loadMonitoring [f1, f2])).map
        (fun a => a.observations_count) = [1] ∧
    (loadMonitoring [f1, f2]).filter (fun r => decide (r.crop_id = "7"))
      = [f1, f2] ∧
    (1 : Nat) ≠ 2 := by decide

/-- C7 amended: for every crop_id group, observations_count equals the number
of rows of the group whose fid is non-null (pandas "count" excludes missing
values); it equals the row count of the group exactly when every row of the
group has a non-null fid. -/
theorem observations_count_nonnull_fid (df : List ObsRow) (a : AggRow)
    (ha : a ∈ agg_monitoring df) :
    a.observations_count
      = ((df.filter (fun r => decide (r.crop_id = a.crop_id))).filter
          (fun r => r.fid.isSome)).length ∧
    ((∀ r ∈ df.filter (fun r => decide (r.crop_id = a.crop_id)), r.fid.isSome) →
      a.observations_count
        = (df.filter (fun r => decide (r.crop_id = a.crop_id))).length) := by
  have hspec := agg_mem_spec df a ha
  have hcount : a.observations_count = countNonNull
      ((df.filter (fun r => decide (r.crop_id = a.crop_id))).map (fun r => r.fid)) :=
    congrArg AggRow.observations_count hspec
  constructor
  · rw [hcount]
    exact countNonNull_eq_length_filter _
  · intro hall
    rw [hcount, countNonNull_eq_length_filter]
    have hsame : (df.filter (fun r => decide (r.crop_id = a.crop_id))).filter
        (fun r => r.fid.isSome) = df.filter (fun r => decide (r.crop_id = a.crop_id)) :=
      List.filter_eq_self.mpr hall
    rw [hsame]

/-- Witness for the amended C7 at the crop-"7" input with one missing fid. -/
theorem observations_count_nonnull_fid_witness :
    a7.observations_count
      = ((([f1, f2] : List ObsRow).filter (fun r => decide (r.crop_id = a7.crop_id))).filter
          (fun r => r.fid.isSome)).length ∧
    ((∀ r ∈ ([f1, f2] : List ObsRow).filter (fun r => decide (r.crop_id = a7.crop_id)),
        r.fid.isSome) →
      a7.observations_count
        = (([f1, f2] : List ObsRow).filter (fun r => decide (r.crop_id = a7.crop_id))).length) :=
  observations_count_nonnull_fid [f1, f2] a7 (List.mem_cons_self _ _)

/-- C8: the display center of the Map view is the pair (mean of the filtered
centroid latitudes, mean of the filtered centroid longitudes) whenever the filtered
set is non-empty, and the fixed fallback (0, 0) whenever it is empty. -/
theorem farm_center_spec (l : List MergedRow) :
    (l ≠ [] → farm_center l =
      ((l.map (fun r => r.cy)).sum / (l.length : Rat),
       (l.map (fun r => r.cx)).sum / (l.length : Rat))) ∧
    (l = [] → farm_center l = (0, 0)) := by
  constructor
  · intro h
    unfold farm_center listMean
    rw [if_neg (by simpa using h), List.length_map, List.length_map]
  · intro h
    subst h
    rfl

/-- Witness for C8: a one-row filtered set and the empty filtered set. -/
theorem farm_center_spec_witness :
    farm_center [m99] = (4, 3) ∧ farm_center ([] : List MergedRow) = (0, 0) := by
  constructor
  · rw [(farm_center_spec [m99]).1 (by simp)]
    norm_num [m99, c99, fillnaMerged, joinRow]
  · exact (farm_center_spec []).2 rfl

/-- C9: the post-join fill replaces every missing avg_height, not only those
of unmatched join rows: a merged row whose crop has observation rows but only
null heights (so the group mean is NaN) also ends with avg_height 0 — the
value 0 does not distinguish "no observations" from "observations with no
valid heights". -/
theorem null_heights_avg_zero (obs : List ObsRow) (pc : List CentroidRow)
    (m : MergedRow) (hm : m ∈ merged_gdf obs pc)
    (hne : (loadMonitoring obs).filter (fun r => decide (r.crop_id = m.id)) ≠ [])
    (hnull : ∀ r ∈ (loadMonitoring obs).filter (fun r => decide (r.crop_id = m.id)),
      r.height_cm = none) :
    m.avg_height = some 0 := by
  obtain ⟨c, hc, rfl⟩ := mem_merged_gdf hm
  cases hfind : (agg_monitoring (loadMonitoring obs)).find?
      (fun a => decide (a.crop_id = c.id)) with
  | none => rfl
  | some a =>
    have ha := List.mem_of_find?_eq_some hfind
    have hpa : a.crop_id = c.id := by simpa using List.find?_some hfind
    have hspec := agg_mem_spec _ a ha
    have havg : a.avg_height = meanOpt (((loadMonitoring obs).filter
        (fun r => decide (r.crop_id = a.crop_id))).map (fun r => r.height_cm)) :=
      congrArg AggRow.avg_height hspec
    have hnull' : ∀ r ∈ (loadMonitoring obs).filter
        (fun r => decide (r.crop_id = a.crop_id)), r.height_cm = none := by
      rw [hpa]
      exact hnull
    have hmean : meanOpt (((loadMonitoring obs).filter
        (fun r => decide (r.crop_id = a.crop_id))).map (fun r => r.height_cm))
        = none := by
      unfold meanOpt
      rw [if_pos]
      rw [List.isEmpty_iff, List.filterMap_eq_nil_iff]
      intro x hx
      obtain ⟨r, hr, rfl⟩ := List.mem_map.mp hx
      exact hnull' r hr
    show some ((a.avg_height).getD 0) = some 0
    rw [havg, hmean]
    rfl

/-- Witness for C9: crop "9" has one observation whose height failed numeric
coercion; its merged row still shows avg_height 0. -/
theorem null_heights_avg_zero_witness :
    m9.avg_height = some 0 :=
  null_heights_avg_zero [h9] [c9] m9 (by decide) (by decide) (by decide)

/-- C10: last_observed is not among the filled defaults — the fill leaves it
untouched on every row, the merged row of an unmatched centroid keeps it
null, and
the map popup renders that null date as the literal "N/A". -/
theorem last_observed_not_defaulted :
    (∀ r : MergedRow, (fillnaMerged r).last_observed = r.last_observed) ∧
    (∀ (obs : List ObsRow) (pc : List CentroidRow) (m : MergedRow),
      m ∈ merged_gdf obs pc →
      (∀ a ∈ agg_monitoring (loadMonitoring obs), a.crop_id ≠ m.id) →
      m.last_observed = none ∧ formatDateCell m.last_observed = "N/A") := by
  refine ⟨fun r => rfl, ?_⟩
  intro obs pc m hm h
  obtain ⟨c, hc, rfl⟩ := mem_merged_gdf hm
  cases hfind : (agg_monitoring (loadMonitoring obs)).find?
      (fun a => decide (a.crop_id = c.id)) with
  | none => exact ⟨rfl, rfl⟩
  | some a =>
    exfalso
    have ha := List.mem_of_find?_eq_some hfind
    have hpa : a.crop_id = c.id := by simpa using List.find?_some hfind
    exact h a ha hpa

/-- Witness for C10: the unmatched merged row of centroid "99" keeps a null
last_observed which the popup renders as "N/A"; the fill is the identity on
that column. -/
theorem last_observed_not_defaulted_witness :
    (fillnaMerged m99).last_observed = m99.last_observed ∧
    (m99.last_observed = none ∧ formatDateCell m99.last_observed = "N/A") :=
  ⟨last_observed_not_defaulted.1 m99,
   last_observed_not_defaulted.2 [] [c99] m99 (by decide) (by decide)⟩
